import Mathlib

/-!
Shallow embedding of the Adminory authentication subsystem
(src/backend/app/utils/security.py, src/backend/app/services/auth.py,
src/backend/app/api/auth.py, src/backend/app/models/user.py,
src/backend/app/config.py), together with theorems settling the
spec claims about token issuance, verification, rotation and revocation.

Modelling conventions:
  * Machine time is `Nat` (Unix seconds), matching the second-granularity
    `exp` claim produced by `timegm(datetime.utctimetuple())` in python-jose.
  * A JWT string is modelled by the inductive `TokenStr`: either a
    well-formed token `signed payload secret` (python-jose produces a
    deterministic string from a payload dict and an HMAC key, so a
    payload/secret pair identifies the string), or `malformed s` for any
    string that is not a well-formed JWT.
  * Redis is a list of (key, value, ttl) entries.  Keys are structured
    (`refresh_token:{uid}:{token}`, `password_reset:{tok}`,
    `email_verification:{tok}`): user ids are UUIDs and JWTs are base64url
    segments, neither contains a colon, so the structured key space is
    in bijection with the concrete key strings.
  * Each async service method becomes a state-passing function
    `World -> Except HTTPError A × World`; a raised HTTPException is the
    `.error` case, and the returned world carries whatever writes had
    already happened before the raise (Python exceptions do not roll back
    earlier Redis/DB writes).
  * `secrets.token_urlsafe(32)` is modelled by an explicit `fresh` argument
    supplying the random value.
-/

/-- JWT payload as built by `create_access_token` / `create_refresh_token`:
the caller's dict {sub, email, role} plus the added `exp` and `type` claims. -/
structure JwtPayload where
  sub : String
  email : String
  role : String
  exp : Nat
  type : String
  deriving DecidableEq, Repr

/-- A token string: either a well-formed JWT (payload signed with an HMAC
secret; python-jose encoding is deterministic so the pair determines the
string) or any string that is not a well-formed JWT. -/
inductive TokenStr where
  | signed (payload : JwtPayload) (secret : String)
  | malformed (s : String)
  deriving DecidableEq, Repr

/-- Subset of `app/config.py` `Settings` used by the token subsystem,
with the source's default values. -/
structure Settings where
  JWT_SECRET : String
  JWT_REFRESH_SECRET : String
  ACCESS_TOKEN_EXPIRE_MINUTES : Nat := 15
  REFRESH_TOKEN_EXPIRE_DAYS : Nat := 7
  deriving Repr

/-- Source: `jose.jwt.decode(token, key, algorithms=[...])`: fails (JWTError) on a
malformed token or a signature mismatch; raises ExpiredSignatureError
(a JWTError) when the `exp` claim is in the past (`exp < now`, zero leeway). -/
def joseDecode (token : TokenStr) (key : String) (now : Nat) : Option JwtPayload :=
  match token with
  | .malformed _ => none
  | .signed p sec =>
      if sec == key then
        if p.exp < now then none else some p
      else none

/-- The `data` dict passed to the token creators by the auth service:
`{"sub": str(user.id), "email": user.email, "role": user.role.value}`. -/
structure TokenData where
  sub : String
  email : String
  role : String
  deriving DecidableEq, Repr

/-- Source: `security.create_access_token`: expiry is `now + expires_delta` when
given, else `now + ACCESS_TOKEN_EXPIRE_MINUTES` minutes; adds
`type = "access"` and signs with `JWT_SECRET`. -/
def create_access_token (S : Settings) (data : TokenData)
    (expires_delta : Option Nat) (now : Nat) : TokenStr :=
  let expire :=
    match expires_delta with
    | some d => now + d
    | none => now + S.ACCESS_TOKEN_EXPIRE_MINUTES * 60
  .signed { sub := data.sub, email := data.email, role := data.role,
            exp := expire, type := "access" } S.JWT_SECRET

/-- Source: `security.create_refresh_token`: expiry `now + REFRESH_TOKEN_EXPIRE_DAYS`
days; adds `type = "refresh"` and signs with `JWT_REFRESH_SECRET`. -/
def create_refresh_token (S : Settings) (data : TokenData) (now : Nat) : TokenStr :=
  .signed { sub := data.sub, email := data.email, role := data.role,
            exp := now + S.REFRESH_TOKEN_EXPIRE_DAYS * 24 * 3600,
            type := "refresh" } S.JWT_REFRESH_SECRET

/-- Source: `security.decode_token`: picks the secret for the *claimed* type,
decodes (returning None on any JWTError), then rejects a payload whose
`type` claim differs from the type being checked. -/
def decode_token (S : Settings) (token : TokenStr) (token_type : String)
    (now : Nat) : Option JwtPayload :=
  let secret := if token_type == "access" then S.JWT_SECRET else S.JWT_REFRESH_SECRET
  match joseDecode token secret now with
  | none => none
  | some payload =>
      if (payload.type == token_type) = false then none else some payload

/-- Source: `security.hash_password` (Argon2 via passlib), modelled as an injective
tagging of the password; only `verify_password` ever inspects the result. -/
def hash_password (password : String) : String :=
  "argon2$" ++ password

/-- Source: `security.verify_password`: true iff the hash matches the password. -/
def verify_password (plain_password : String) (hashed_password : String) : Bool :=
  hashed_password == hash_password plain_password

/-- Source: `app/models/user.py` `UserRole`. -/
inductive UserRole where
  | super_admin
  | admin
  | user
  deriving DecidableEq, Repr

/-- Source: `UserRole.value` (the string value of the Python str-enum). -/
def UserRole.value : UserRole → String
  | .super_admin => "super_admin"
  | .admin => "admin"
  | .user => "user"

/-- Source: `app/models/user.py` `User` row, restricted to the fields the token
subsystem reads or writes.  `id` is the string form of the UUID. -/
structure User where
  id : String
  email : String
  password_hash : Option String
  name : String
  role : UserRole
  is_active : Bool
  email_verified_at : Option Nat
  last_login_at : Option Nat
  deriving DecidableEq, Repr

/-- Structured Redis key space used by the auth service:
`refresh_token:{user_id}:{refresh_token}`, `password_reset:{token}`,
`email_verification:{token}`. -/
inductive RKey where
  | refreshToken (userId : String) (token : TokenStr)
  | passwordReset (token : String)
  | emailVerification (token : String)
  deriving DecidableEq, Repr

/-- One Redis entry: key, stored string value, and the TTL (seconds)
it was last set with. -/
structure RedisEntry where
  key : RKey
  value : String
  ttl : Nat
  deriving DecidableEq, Repr

/-- The Redis database. -/
def Redis := List RedisEntry

instance : DecidableEq Redis := by
  unfold Redis
  infer_instance

/-- Source: `redis.setex key ttl value`: upsert with TTL. -/
def redisSetex (r : Redis) (k : RKey) (ttl : Nat) (v : String) : Redis :=
  ⟨k, v, ttl⟩ :: List.filter (fun e => !(e.key == k)) r

/-- Source: `redis.get key`. -/
def redisGet (r : Redis) (k : RKey) : Option String :=
  (List.find? (fun e => e.key == k) r).map (fun e => e.value)

/-- Source: `redis.exists key`. -/
def redisExists (r : Redis) (k : RKey) : Bool :=
  List.any r (fun e => e.key == k)

/-- The full entry under a key (used to observe the TTL a record
was stored with). -/
def redisEntry (r : Redis) (k : RKey) : Option RedisEntry :=
  List.find? (fun e => e.key == k) r

/-- Source: `redis.delete key`. -/
def redisDelete (r : Redis) (k : RKey) : Redis :=
  List.filter (fun e => !(e.key == k)) r

/-- The user table. -/
def DB := List User

instance : DecidableEq DB := by
  unfold DB
  infer_instance

/-- Source: `select(User).where(User.email == email)` + `scalar_one_or_none()`. -/
def findByEmail (db : DB) (email : String) : Option User :=
  List.find? (fun u => u.email == email) db

/-- Source: `select(User).where(User.id == id)` + `scalar_one_or_none()`. -/
def findById (db : DB) (id : String) : Option User :=
  List.find? (fun u => u.id == id) db

/-- ORM mutation + commit: replace the row with the same id. -/
def updateUser (db : DB) (u : User) : DB :=
  List.map (fun x => if x.id == u.id then u else x) db

/-- The world a request handler sees: the relational store, the Redis
store, and the current clock (Unix seconds).  Time does not advance
inside a single handler. -/
structure World where
  db : DB
  redis : Redis
  now : Nat
  deriving DecidableEq

/-- Source: `fastapi.HTTPException`. -/
structure HTTPError where
  status_code : Nat
  detail : String
  deriving DecidableEq, Repr

/-- Source: `app/schemas/auth.py` `LoginRequest`. -/
structure LoginRequest where
  email : String
  password : String
  deriving DecidableEq, Repr

/-- Python truthiness of `user.password_hash` (`None` and `""` are falsy). -/
def pyFalsyStrOpt : Option String → Bool
  | none => true
  | some s => s == ""

/-- The `token_data` dict built by the auth service from a user row. -/
def token_data_of (u : User) : TokenData :=
  { sub := u.id, email := u.email, role := u.role.value }

namespace AuthService

/-- Source: `AuthService._store_refresh_token`: allow-record under
`refresh_token:{user_id}:{refresh_token}`, value `"1"`, TTL hard-coded
`7 * 24 * 3600` ("Store for 7 days (same as refresh token expiration)"). -/
def store_refresh_token (r : Redis) (user_id : String) (refresh_token : TokenStr) : Redis :=
  redisSetex r (.refreshToken user_id refresh_token) (7 * 24 * 3600) "1"

/-- Source: `AuthService._check_refresh_token`: existence of the allow-record. -/
def check_refresh_token (r : Redis) (user_id : String) (refresh_token : TokenStr) : Bool :=
  redisExists r (.refreshToken user_id refresh_token)

/-- Source: `AuthService._revoke_refresh_token`: delete one allow-record. -/
def revoke_refresh_token (r : Redis) (user_id : String) (refresh_token : TokenStr) : Redis :=
  redisDelete r (.refreshToken user_id refresh_token)

/-- Source: `AuthService._revoke_all_refresh_tokens`: SCAN+DELETE every key
matching `refresh_token:{user_id}:*`. -/
def revoke_all_refresh_tokens (r : Redis) (user_id : String) : Redis :=
  List.filter (fun e =>
    match e.key with
    | .refreshToken u _ => !(u == user_id)
    | _ => true) r

/-- Source: `AuthService.authenticate_user` (login): 401 on unknown email, falsy
or mismatching password hash; 403 on inactive; otherwise update
`last_login_at`, issue the token pair and register the refresh token's
allow-record. -/
def authenticate_user (S : Settings) (w : World) (data : LoginRequest) :
    Except HTTPError (User × TokenStr × TokenStr) × World :=
  match findByEmail w.db data.email with
  | none => (.error ⟨401, "Incorrect email or password"⟩, w)
  | some user =>
      if pyFalsyStrOpt user.password_hash
          || !(verify_password data.password ((user.password_hash).getD "")) then
        (.error ⟨401, "Incorrect email or password"⟩, w)
      else if !user.is_active then
        (.error ⟨403, "User account is inactive"⟩, w)
      else
        let user1 := { user with last_login_at := some w.now }
        let db1 := updateUser w.db user1
        let token_data := token_data_of user
        let access_token := create_access_token S token_data none w.now
        let refresh_token := create_refresh_token S token_data w.now
        let redis1 := store_refresh_token w.redis user.id refresh_token
        (.ok (user1, access_token, refresh_token), { w with db := db1, redis := redis1 })

/-- Source: `AuthService.refresh_access_token` (rotation): decode, check `sub`,
check the allow-record, load the user, issue the new pair, then revoke
the old allow-record and store the new one (in that order). -/
def refresh_access_token (S : Settings) (w : World) (refresh_token : TokenStr) :
    Except HTTPError (TokenStr × TokenStr) × World :=
  match decode_token S refresh_token "refresh" w.now with
  | none => (.error ⟨401, "Invalid refresh token"⟩, w)
  | some payload =>
      let user_id := payload.sub
      if user_id == "" then
        (.error ⟨401, "Invalid token payload"⟩, w)
      else if !(check_refresh_token w.redis user_id refresh_token) then
        (.error ⟨401, "Refresh token has been revoked"⟩, w)
      else
        match findById w.db user_id with
        | none => (.error ⟨401, "User not found or inactive"⟩, w)
        | some user =>
            if !user.is_active then
              (.error ⟨401, "User not found or inactive"⟩, w)
            else
              let token_data := token_data_of user
              let new_access_token := create_access_token S token_data none w.now
              let new_refresh_token := create_refresh_token S token_data w.now
              let redis1 := revoke_refresh_token w.redis user_id refresh_token
              let redis2 := store_refresh_token redis1 user_id new_refresh_token
              (.ok (new_access_token, new_refresh_token), { w with redis := redis2 })

/-- The successive revocation-store states passed through by
`refresh_access_token`, one per await, in source order: initial, after
`_revoke_refresh_token` (line 194), after `_store_refresh_token`
(line 195).  On a failure path only the (unchanged) initial state occurs. -/
def refresh_redis_states (S : Settings) (w : World) (refresh_token : TokenStr) :
    List Redis :=
  match decode_token S refresh_token "refresh" w.now with
  | none => [w.redis]
  | some payload =>
      let user_id := payload.sub
      if user_id == "" then [w.redis]
      else if !(check_refresh_token w.redis user_id refresh_token) then [w.redis]
      else
        match findById w.db user_id with
        | none => [w.redis]
        | some user =>
            if !user.is_active then [w.redis]
            else
              let new_refresh_token := create_refresh_token S (token_data_of user) w.now
              let redis1 := revoke_refresh_token w.redis user_id refresh_token
              let redis2 := store_refresh_token redis1 user_id new_refresh_token
              [w.redis, redis1, redis2]

/-- Source: `AuthService.logout_user`. -/
def logout_user (w : World) (user_id : String) (refresh_token : TokenStr) :
    Except HTTPError Unit × World :=
  (.ok (), { w with redis := revoke_refresh_token w.redis user_id refresh_token })

/-- Source: `AuthService.verify_email`: look up `email_verification:{token}`,
404 if the user row is gone (token kept!), else set `email_verified_at`
and delete the token. -/
def verify_email (w : World) (token : String) : Except HTTPError User × World :=
  match redisGet w.redis (.emailVerification token) with
  | none => (.error ⟨400, "Invalid or expired verification token"⟩, w)
  | some user_id =>
      match findById w.db user_id with
      | none => (.error ⟨404, "User not found"⟩, w)
      | some user =>
          let user1 := { user with email_verified_at := some w.now }
          let db1 := updateUser w.db user1
          let redis1 := redisDelete w.redis (.emailVerification token)
          (.ok user1, { w with db := db1, redis := redis1 })

/-- Source: `AuthService.create_password_reset_token`: silently returns `""` when
the email is unknown; otherwise stores `password_reset:{fresh} -> user.id`
with TTL 3600.  `fresh` models `secrets.token_urlsafe(32)`. -/
def create_password_reset_token (w : World) (email : String) (fresh : String) :
    Except HTTPError String × World :=
  match findByEmail w.db email with
  | none => (.ok "", w)
  | some user =>
      (.ok fresh,
        { w with redis := redisSetex w.redis (.passwordReset fresh) 3600 user.id })

/-- Source: `AuthService.reset_password`: redeem `password_reset:{token}`, 404 if
the user row is gone, else update the password hash, delete the token,
and revoke every refresh token of the user. -/
def reset_password (w : World) (token : String) (new_password : String) :
    Except HTTPError User × World :=
  match redisGet w.redis (.passwordReset token) with
  | none => (.error ⟨400, "Invalid or expired reset token"⟩, w)
  | some user_id =>
      match findById w.db user_id with
      | none => (.error ⟨404, "User not found"⟩, w)
      | some user =>
          let user1 := { user with password_hash := some (hash_password new_password) }
          let db1 := updateUser w.db user1
          let redis1 := redisDelete w.redis (.passwordReset token)
          let redis2 := revoke_all_refresh_tokens redis1 user.id
          (.ok user1, { w with db := db1, redis := redis2 })

/-- Source: `AuthService.change_password`: 404 unknown user, 400 wrong current
password, else update the hash.  No refresh-token revocation happens. -/
def change_password (w : World) (user_id : String)
    (current_password : String) (new_password : String) :
    Except HTTPError User × World :=
  match findById w.db user_id with
  | none => (.error ⟨404, "User not found"⟩, w)
  | some user =>
      if pyFalsyStrOpt user.password_hash
          || !(verify_password current_password ((user.password_hash).getD "")) then
        (.error ⟨400, "Current password is incorrect"⟩, w)
      else
        let user1 := { user with password_hash := some (hash_password new_password) }
        let db1 := updateUser w.db user1
        (.ok user1, { w with db := db1 })

/-- Source: `AuthService.create_verification_token`: store
`email_verification:{fresh} -> user_id` with TTL 86400 and return the token. -/
def create_verification_token (w : World) (user_id : String) (fresh : String) :
    Except HTTPError String × World :=
  (.ok fresh,
    { w with redis := redisSetex w.redis (.emailVerification fresh) 86400 user_id })

end AuthService

/-- Source: `app/api/auth.py` `forgot_password` endpoint: runs
`create_password_reset_token` and always answers the same generic message. -/
def forgot_password (w : World) (email : String) (fresh : String) :
    Except HTTPError String × World :=
  match AuthService.create_password_reset_token w email fresh with
  | (.error e, w1) => (.error e, w1)
  | (.ok _, w1) =>
      (.ok "If the email exists, a password reset link has been sent.", w1)

/-! ## Concrete fixtures used by counterexamples and witnesses -/

/-- Concrete settings used by the counterexample theorems. -/
def exSettings : Settings :=
  { JWT_SECRET := "access-secret", JWT_REFRESH_SECRET := "refresh-secret" }

/-- Concrete principal used by the counterexample theorems. -/
def exUser : User :=
  { id := "u-1", email := "alice@example.com",
    password_hash := some (hash_password "old-pw"), name := "Alice",
    role := .user, is_active := true,
    email_verified_at := none, last_login_at := none }

/-- An old refresh token of `exUser` (issued earlier, still unexpired
at time 1000). -/
def exRT1 : TokenStr :=
  .signed { sub := "u-1", email := "alice@example.com", role := "user",
            exp := 500000, type := "refresh" } "refresh-secret"

/-- The refresh token the rotation at time 1000 will mint for `exUser`. -/
def exNRT1 : TokenStr := create_refresh_token exSettings (token_data_of exUser) 1000

/-- World in which `exRT1` has an allow-record and the clock reads 1000. -/
def exW1 : World :=
  { db := [exUser], redis := [⟨.refreshToken "u-1" exRT1, "1", 604800⟩], now := 1000 }

/-- A refresh token of `exUser` minted at time 1000 — byte-identical to
what a rotation at time 1000 will mint, since JWT encoding is
deterministic and the claims dict is the same. -/
def exRT3 : TokenStr := create_refresh_token exSettings (token_data_of exUser) 1000

/-- World in which `exRT3` was just issued (its allow-record exists) and
the clock still reads 1000. -/
def exW3 : World :=
  { db := [exUser], redis := [⟨.refreshToken "u-1" exRT3, "1", 604800⟩], now := 1000 }

/-- Settings identical to the defaults except a configured refresh-token
lifetime of 1 day instead of 7. -/
def exSettings8 : Settings :=
  { JWT_SECRET := "access-secret", JWT_REFRESH_SECRET := "refresh-secret",
    REFRESH_TOKEN_EXPIRE_DAYS := 1 }

/-- The refresh token a login at time 1000 issues under `exSettings8`. -/
def exRT8 : TokenStr := create_refresh_token exSettings8 (token_data_of exUser) 1000

/-- World for the C8 counterexample: just the user, empty Redis. -/
def exW8 : World := { db := [exUser], redis := [], now := 1000 }

/-- The login request the C8 counterexample uses. -/
def exLogin : LoginRequest := { email := "alice@example.com", password := "old-pw" }

/-- An unexpired refresh token of `exUser` issued earlier. -/
def exRT2 : TokenStr :=
  .signed { sub := "u-1", email := "alice@example.com", role := "user",
            exp := 500000, type := "refresh" } "refresh-secret"

/-- World for the C2 counterexample: `exRT2` has an allow-record. -/
def exW2 : World :=
  { db := [exUser], redis := [⟨.refreshToken "u-1" exRT2, "1", 604800⟩], now := 1000 }

/-- World used by the C2 witness: a pending reset token and a live
allow-record for `exRT2`. -/
def exW2r : World :=
  { db := [exUser],
    redis := [⟨.passwordReset "tok-B", "u-1", 3600⟩,
              ⟨.refreshToken "u-1" exRT2, "1", 604800⟩],
    now := 1000 }

/-- An SSO-only principal: no password hash. -/
def exSsoUser : User :=
  { id := "u-2", email := "bob@example.com", password_hash := none,
    name := "Bob", role := .admin, is_active := true,
    email_verified_at := none, last_login_at := none }

/-- World containing only the SSO-only principal. -/
def exW10 : World := { db := [exSsoUser], redis := [], now := 0 }

/-- World for the C7 witness: just the user, empty Redis. -/
def exW7 : World := { db := [exUser], redis := [], now := 1000 }

/-! ## Generic list lemmas used to reason about the Redis model -/

/-- Finding an entry is unaffected by a filter that keeps every entry the
search predicate could match. -/
theorem find?_filter_keep {α : Type} (pf pk : α → Bool)
    (h : ∀ e, pf e = true → pk e = true) (r : List α) :
    List.find? pf (List.filter pk r) = List.find? pf r := by
  induction r with
  | nil => rfl
  | cons a t ih =>
      cases hk : pk a with
      | true =>
          cases hf : pf a with
          | true => simp [List.filter_cons, hk, List.find?_cons, hf]
          | false => simp [List.filter_cons, hk, List.find?_cons, hf, ih]
      | false =>
          have hf : pf a = false := by
            cases hf2 : pf a with
            | true => exact absurd (h a hf2) (by simp [hk])
            | false => rfl
          simp [List.filter_cons, hk, List.find?_cons, hf, ih]

/-- Finding an entry fails after a filter that drops every entry the
search predicate could match. -/
theorem find?_filter_drop {α : Type} (pf pk : α → Bool)
    (h : ∀ e, pf e = true → pk e = false) (r : List α) :
    List.find? pf (List.filter pk r) = none := by
  induction r with
  | nil => rfl
  | cons a t ih =>
      cases hk : pk a with
      | true =>
          have hf : pf a = false := by
            cases hf2 : pf a with
            | true => exact absurd (h a hf2) (by simp [hk])
            | false => rfl
          simp [List.filter_cons, hk, List.find?_cons, hf, ih]
      | false => simp [List.filter_cons, hk, ih]

/-- Existence of an entry is unaffected by a filter that keeps every entry
the search predicate could match. -/
theorem any_filter_keep {α : Type} (pf pk : α → Bool)
    (h : ∀ e, pf e = true → pk e = true) (r : List α) :
    List.any (List.filter pk r) pf = List.any r pf := by
  induction r with
  | nil => rfl
  | cons a t ih =>
      cases hk : pk a with
      | true => simp [List.filter_cons, hk, List.any_cons, ih]
      | false =>
          have hf : pf a = false := by
            cases hf2 : pf a with
            | true => exact absurd (h a hf2) (by simp [hk])
            | false => rfl
          simp [List.filter_cons, hk, List.any_cons, hf, ih]

/-- Existence fails after a filter that drops every entry the search
predicate could match. -/
theorem any_filter_drop {α : Type} (pf pk : α → Bool)
    (h : ∀ e, pf e = true → pk e = false) (r : List α) :
    List.any (List.filter pk r) pf = false := by
  induction r with
  | nil => rfl
  | cons a t ih =>
      cases hk : pk a with
      | true =>
          have hf : pf a = false := by
            cases hf2 : pf a with
            | true => exact absurd (h a hf2) (by simp [hk])
            | false => rfl
          simp [List.filter_cons, hk, List.any_cons, hf, ih]
      | false => simp [List.filter_cons, hk, ih]

/-! ## Redis store lemmas -/

theorem redisGet_setex_same (r : Redis) (k : RKey) (ttl : Nat) (v : String) :
    redisGet (redisSetex r k ttl v) k = some v := by
  simp [redisGet, redisSetex, List.find?_cons]

theorem redisEntry_setex_same (r : Redis) (k : RKey) (ttl : Nat) (v : String) :
    redisEntry (redisSetex r k ttl v) k = some ⟨k, v, ttl⟩ := by
  simp [redisEntry, redisSetex, List.find?_cons]

theorem redisExists_setex_same (r : Redis) (k : RKey) (ttl : Nat) (v : String) :
    redisExists (redisSetex r k ttl v) k = true := by
  simp [redisExists, redisSetex, List.any_cons]

theorem redisExists_setex_other (r : Redis) (k : RKey) (ttl : Nat) (v : String)
    (k' : RKey) (h : k' ≠ k) :
    redisExists (redisSetex r k ttl v) k' = redisExists r k' := by
  have hhead : ((⟨k, v, ttl⟩ : RedisEntry).key == k') = false := by
    simp
    exact fun hk => h hk.symm
  simp only [redisExists, redisSetex, List.any_cons, hhead, Bool.false_or]
  apply any_filter_keep
  intro e he
  simp at he ⊢
  rw [he]
  exact h

theorem redisExists_delete_same (r : Redis) (k : RKey) :
    redisExists (redisDelete r k) k = false := by
  apply any_filter_drop
  intro e he
  simp at he ⊢
  exact he

theorem redisExists_delete_other (r : Redis) (k k' : RKey) (h : k' ≠ k) :
    redisExists (redisDelete r k) k' = redisExists r k' := by
  apply any_filter_keep
  intro e he
  simp at he ⊢
  rw [he]
  exact h

theorem redisGet_delete_same (r : Redis) (k : RKey) :
    redisGet (redisDelete r k) k = none := by
  unfold redisGet redisDelete
  rw [find?_filter_drop]
  · rfl
  · intro e he
    simp at he ⊢
    exact he

/-- Deleting all of a user's allow-records leaves password-reset entries
untouched. -/
theorem redisGet_revoke_all_passwordReset (r : Redis) (uid t : String) :
    redisGet (AuthService.revoke_all_refresh_tokens r uid) (.passwordReset t)
      = redisGet r (.passwordReset t) := by
  unfold redisGet AuthService.revoke_all_refresh_tokens
  rw [find?_filter_keep]
  intro e he
  simp at he
  rw [he]

/-- After `revoke_all_refresh_tokens uid` no allow-record of `uid` remains. -/
theorem redisExists_revoke_all_same (r : Redis) (uid : String) (t : TokenStr) :
    redisExists (AuthService.revoke_all_refresh_tokens r uid) (.refreshToken uid t)
      = false := by
  apply any_filter_drop
  intro e he
  simp at he
  rw [he]
  simp

/-! ## Claim theorems -/

/-- C4: if `refresh_access_token` fails at any of its first three steps
(invalid signature/type/expiry, missing allow-record, or principal missing
or inactive), the exchange aborts with an error and no partial rotation
occurs: the world (in particular the revocation store) is unchanged, so
the old refresh token's allow-record is exactly as it was before the call. -/
theorem c4_refresh_failure_no_partial_rotation
    (S : Settings) (w w2 : World) (rt : TokenStr) (e : HTTPError)
    (h : AuthService.refresh_access_token S w rt = (.error e, w2)) :
    w2 = w ∧ w2.redis = w.redis ∧
      ∀ uid : String, AuthService.check_refresh_token w2.redis uid rt
        = AuthService.check_refresh_token w.redis uid rt := by
  have hw : w2 = w := by
    unfold AuthService.refresh_access_token at h
    repeat' first
      | dsimp only at h
      | split at h
    all_goals injection h with h1 h2
    all_goals first
      | exact h2.symm
      | exact Except.noConfusion h1
  subst hw
  exact ⟨rfl, rfl, fun _ => rfl⟩

/-- C10: a principal whose `password_hash` is absent (SSO-only user) gets
the same 401 "Incorrect email or password" from `authenticate_user` for
every supplied password, with no state change; and this outcome is
identical to the wrong-password failure of a principal that does have a
(non-empty) password hash. -/
theorem c10_sso_only_login_rejected :
    (∀ (S : Settings) (w : World) (d : LoginRequest) (u : User),
        findByEmail w.db d.email = some u → u.password_hash = none →
        AuthService.authenticate_user S w d
          = (.error ⟨401, "Incorrect email or password"⟩, w))
    ∧ (∀ (S : Settings) (w : World) (d : LoginRequest) (u : User) (hsh : String),
        findByEmail w.db d.email = some u → u.password_hash = some hsh →
        (hsh == "") = false → verify_password d.password hsh = false →
        AuthService.authenticate_user S w d
          = (.error ⟨401, "Incorrect email or password"⟩, w)) := by
  constructor
  · intro S w d u hf hp
    unfold AuthService.authenticate_user
    rw [hf]
    simp [pyFalsyStrOpt, hp]
  · intro S w d u hsh hf hp hne hv
    unfold AuthService.authenticate_user
    rw [hf]
    simp [pyFalsyStrOpt, hp, hne, hv]

/-- C9: the forgot-password endpoint answers the same generic success
message whether or not the email belongs to a principal; when no
principal matches, the world is unchanged (no reset token minted, no
error surfaced), and the response of any two runs coincides. -/
theorem c9_forgot_password_noninterference (w : World) (email fresh : String) :
    (forgot_password w email fresh).1
        = .ok "If the email exists, a password reset link has been sent."
    ∧ (findByEmail w.db email = none → (forgot_password w email fresh).2 = w)
    ∧ (∀ (w2 : World) (fresh2 : String),
        (forgot_password w email fresh).1 = (forgot_password w2 email fresh2).1) := by
  have key : ∀ (wx : World) (fx : String),
      (forgot_password wx email fx).1
        = .ok "If the email exists, a password reset link has been sent." := by
    intro wx fx
    unfold forgot_password AuthService.create_password_reset_token
    cases hf : findByEmail wx.db email <;> simp [hf]
  refine ⟨key w fresh, ?_, fun w2 f2 => (key w fresh).trans (key w2 f2).symm⟩
  intro hnone
  unfold forgot_password AuthService.create_password_reset_token
  simp [hnone]

/-- C5: `decode_token` treats every invalid input as `none` rather than an
exception (the embedding is a total function): a malformed string, a
signature under any key other than the secret for the claimed type, a
payload whose `type` claim differs from the checked type, and an elapsed
expiry all yield `none`; moreover a token minted as one type is never
validated as the other (cross-type rejection), whatever the secrets are. -/
theorem c5_decode_token_rejections (S : Settings) (ty : String)
    (_hty : ty = "access" ∨ ty = "refresh") :
    (∀ (s : String) (now : Nat), decode_token S (.malformed s) ty now = none)
    ∧ (∀ (p : JwtPayload) (sec : String) (now : Nat),
        (sec == (if ty == "access" then S.JWT_SECRET else S.JWT_REFRESH_SECRET))
            = false →
        decode_token S (.signed p sec) ty now = none)
    ∧ (∀ (p : JwtPayload) (sec : String) (now : Nat),
        (p.type == ty) = false → decode_token S (.signed p sec) ty now = none)
    ∧ (∀ (p : JwtPayload) (sec : String) (now : Nat),
        p.exp < now → decode_token S (.signed p sec) ty now = none)
    ∧ (∀ (d : TokenData) (delta : Option Nat) (t1 t2 : Nat),
        decode_token S (create_access_token S d delta t1) "refresh" t2 = none)
    ∧ (∀ (d : TokenData) (t1 t2 : Nat),
        decode_token S (create_refresh_token S d t1) "access" t2 = none) := by
  refine ⟨?_, ?_, ?_, ?_, ?_, ?_⟩
  · intro s now
    rfl
  · intro p sec now hs
    simp only [beq_iff_eq, beq_eq_false_iff_ne] at hs
    simp [decode_token, joseDecode, hs]
  · intro p sec now h3
    simp only [beq_eq_false_iff_ne] at h3
    cases hs : (sec == (if ty == "access" then S.JWT_SECRET else S.JWT_REFRESH_SECRET)) with
    | false =>
        simp only [beq_iff_eq, beq_eq_false_iff_ne] at hs
        simp [decode_token, joseDecode, hs]
    | true =>
        simp only [beq_iff_eq] at hs
        by_cases he : p.exp < now
        · simp [decode_token, joseDecode, hs, he]
        · simp [decode_token, joseDecode, hs, he, h3]
  · intro p sec now h4
    cases hs : (sec == (if ty == "access" then S.JWT_SECRET else S.JWT_REFRESH_SECRET)) with
    | false =>
        simp only [beq_iff_eq, beq_eq_false_iff_ne] at hs
        simp [decode_token, joseDecode, hs]
    | true =>
        simp only [beq_iff_eq] at hs
        simp [decode_token, joseDecode, hs, h4]
  · intro d delta t1 t2
    cases hs : (S.JWT_SECRET == S.JWT_REFRESH_SECRET) with
    | false => simp [create_access_token, decode_token, joseDecode, hs]
    | true =>
        by_cases he : (match delta with
            | some dd => t1 + dd
            | none => t1 + S.ACCESS_TOKEN_EXPIRE_MINUTES * 60) < t2
        · simp [create_access_token, decode_token, joseDecode, hs, he]
        · simp [create_access_token, decode_token, joseDecode, hs, he]
  · intro d t1 t2
    cases hs : (S.JWT_REFRESH_SECRET == S.JWT_SECRET) with
    | false => simp [create_refresh_token, decode_token, joseDecode, hs]
    | true =>
        by_cases he : t1 + S.REFRESH_TOKEN_EXPIRE_DAYS * 24 * 3600 < t2
        · simp [create_refresh_token, decode_token, joseDecode, hs, he]
        · simp [create_refresh_token, decode_token, joseDecode, hs, he]

/-- C6: round trip for a principal `u`: an access token issued at `now`
decodes, at any time up to the embedded expiry, to a payload carrying the
principal's subject/email/role, and decodes to `none` once the embedded
expiry (`now` + the configured access lifetime) has elapsed. -/
theorem c6_access_token_round_trip (S : Settings) (u : User) (now : Nat) :
    (∀ t : Nat, t ≤ now + S.ACCESS_TOKEN_EXPIRE_MINUTES * 60 →
      decode_token S (create_access_token S (token_data_of u) none now) "access" t
        = some { sub := u.id, email := u.email, role := u.role.value,
                 exp := now + S.ACCESS_TOKEN_EXPIRE_MINUTES * 60, type := "access" })
    ∧ (∀ t : Nat, now + S.ACCESS_TOKEN_EXPIRE_MINUTES * 60 < t →
      decode_token S (create_access_token S (token_data_of u) none now) "access" t
        = none) := by
  constructor
  · intro t ht
    have hlt : ¬ (now + S.ACCESS_TOKEN_EXPIRE_MINUTES * 60 < t) := by omega
    simp [create_access_token, decode_token, joseDecode, token_data_of, hlt]
  · intro t ht
    simp [create_access_token, decode_token, joseDecode, token_data_of, ht]

/-- C7: one-time tokens are single-use.  For the password-reset flow:
after minting stores `password_reset:{fresh} -> user.id`, the first
(sequential) redemption updates the password and deletes the mapping, and
a second redemption of the same token fails with the
invalid-or-expired-token error, leaving the world unchanged.  The same
holds for the email-verification flow. -/
theorem c7_one_time_tokens_single_use :
    (∀ (w : World) (email fresh np np2 : String) (u : User),
      findByEmail w.db email = some u →
      findById w.db u.id = some u →
      (AuthService.create_password_reset_token w email fresh).1 = .ok fresh
      ∧ redisGet (AuthService.create_password_reset_token w email fresh).2.redis
          (.passwordReset fresh) = some u.id
      ∧ (AuthService.reset_password
            (AuthService.create_password_reset_token w email fresh).2 fresh np).1
          = .ok { u with password_hash := some (hash_password np) }
      ∧ AuthService.reset_password
            (AuthService.reset_password
              (AuthService.create_password_reset_token w email fresh).2 fresh np).2
            fresh np2
          = (.error ⟨400, "Invalid or expired reset token"⟩,
             (AuthService.reset_password
               (AuthService.create_password_reset_token w email fresh).2 fresh np).2))
    ∧ (∀ (w : World) (uid fresh : String) (u : User),
      findById w.db uid = some u →
      (AuthService.create_verification_token w uid fresh).1 = .ok fresh
      ∧ redisGet (AuthService.create_verification_token w uid fresh).2.redis
          (.emailVerification fresh) = some uid
      ∧ (AuthService.verify_email
            (AuthService.create_verification_token w uid fresh).2 fresh).1
          = .ok { u with email_verified_at := some w.now }
      ∧ AuthService.verify_email
            (AuthService.verify_email
              (AuthService.create_verification_token w uid fresh).2 fresh).2 fresh
          = (.error ⟨400, "Invalid or expired verification token"⟩,
             (AuthService.verify_email
               (AuthService.create_verification_token w uid fresh).2 fresh).2)) := by
  constructor
  · intro w email fresh np np2 u hf hid
    refine ⟨?_, ?_, ?_, ?_⟩
    · simp [AuthService.create_password_reset_token, hf]
    · simp [AuthService.create_password_reset_token, hf, redisGet_setex_same]
    · simp [AuthService.create_password_reset_token, AuthService.reset_password,
        hf, hid, redisGet_setex_same]
    · simp [AuthService.create_password_reset_token, AuthService.reset_password,
        hf, hid, redisGet_setex_same, redisGet_revoke_all_passwordReset,
        redisGet_delete_same]
  · intro w uid fresh u hid
    refine ⟨?_, ?_, ?_, ?_⟩
    · simp [AuthService.create_verification_token]
    · simp [AuthService.create_verification_token, redisGet_setex_same]
    · simp [AuthService.create_verification_token, AuthService.verify_email,
        hid, redisGet_setex_same]
    · simp [AuthService.create_verification_token, AuthService.verify_email,
        hid, redisGet_setex_same, redisGet_delete_same]

/-- C2 (amended): after a successful `reset_password`, every allow-record
for the principal's previously issued refresh tokens is removed, so a
subsequent refresh with any refresh token of that principal fails with
the revoked-token error; `change_password`, by contrast, never touches
the revocation store, so previously issued refresh tokens stay valid. -/
theorem c2_reset_revokes_all_change_does_not :
    (∀ (w : World) (tok np uid : String) (u : User),
      redisGet w.redis (.passwordReset tok) = some uid →
      findById w.db uid = some u →
      (AuthService.reset_password w tok np).1
          = .ok { u with password_hash := some (hash_password np) }
      ∧ (∀ rt : TokenStr,
          redisExists (AuthService.reset_password w tok np).2.redis
            (.refreshToken u.id rt) = false)
      ∧ (∀ (S : Settings) (rt : TokenStr) (p : JwtPayload),
          decode_token S rt "refresh" w.now = some p → p.sub = u.id →
          (u.id == "") = false →
          (AuthService.refresh_access_token S
              (AuthService.reset_password w tok np).2 rt).1
            = .error ⟨401, "Refresh token has been revoked"⟩))
    ∧ (∀ (w : World) (uid cp np : String),
        (AuthService.change_password w uid cp np).2.redis = w.redis) := by
  constructor
  · intro w tok np uid u hget hid
    refine ⟨?_, ?_, ?_⟩
    · simp [AuthService.reset_password, hget, hid]
    · intro rt
      simp [AuthService.reset_password, hget, hid, redisExists_revoke_all_same]
    · intro S rt p hdec hp hne
      have hchk : AuthService.check_refresh_token
          (AuthService.reset_password w tok np).2.redis u.id rt = false := by
        simp [AuthService.reset_password, hget, hid, AuthService.check_refresh_token,
          redisExists_revoke_all_same]
      have hnow : (AuthService.reset_password w tok np).2.now = w.now := by
        simp [AuthService.reset_password, hget, hid]
      simp [AuthService.refresh_access_token, hnow, hdec, hp, hne, hchk]
  · intro w uid cp np
    unfold AuthService.change_password
    repeat' first
      | dsimp only
      | split

/-- C1 (amended): on the success path of `refresh_access_token` the old
allow-record is deleted after the new token pair's JWTs are created but
*before* the new refresh token's allow-record is registered.  Hence the
intermediate store state (between the revoke and the store step) contains
neither the old nor the new allow-record, and — provided the new token
differs from the old and was not already registered — no state the call
passes through has both allow-records at once. -/
theorem c1_rotation_window_has_neither_record
    (S : Settings) (w : World) (rt : TokenStr) (p : JwtPayload) (u : User)
    (hdec : decode_token S rt "refresh" w.now = some p)
    (hsub : (p.sub == "") = false)
    (hchk : AuthService.check_refresh_token w.redis p.sub rt = true)
    (hid : findById w.db p.sub = some u)
    (hact : u.is_active = true)
    (hfresh : redisExists w.redis
        (.refreshToken p.sub (create_refresh_token S (token_data_of u) w.now)) = false)
    (hne : create_refresh_token S (token_data_of u) w.now ≠ rt) :
    AuthService.refresh_redis_states S w rt
      = [w.redis,
         AuthService.revoke_refresh_token w.redis p.sub rt,
         AuthService.store_refresh_token
           (AuthService.revoke_refresh_token w.redis p.sub rt) p.sub
           (create_refresh_token S (token_data_of u) w.now)]
    ∧ redisExists (AuthService.revoke_refresh_token w.redis p.sub rt)
        (.refreshToken p.sub rt) = false
    ∧ redisExists (AuthService.revoke_refresh_token w.redis p.sub rt)
        (.refreshToken p.sub (create_refresh_token S (token_data_of u) w.now)) = false
    ∧ List.all (AuthService.refresh_redis_states S w rt) (fun r =>
        !(redisExists r (.refreshToken p.sub rt)
            && redisExists r (.refreshToken p.sub
                 (create_refresh_token S (token_data_of u) w.now)))) = true := by
  have hkey : (RKey.refreshToken p.sub (create_refresh_token S (token_data_of u) w.now))
      ≠ (RKey.refreshToken p.sub rt) := by
    intro hk
    exact hne (by injection hk)
  have htrace : AuthService.refresh_redis_states S w rt
      = [w.redis,
         AuthService.revoke_refresh_token w.redis p.sub rt,
         AuthService.store_refresh_token
           (AuthService.revoke_refresh_token w.redis p.sub rt) p.sub
           (create_refresh_token S (token_data_of u) w.now)] := by
    simp [AuthService.refresh_redis_states, hdec, hsub, hchk, hid, hact]
  have hrev_old : redisExists (AuthService.revoke_refresh_token w.redis p.sub rt)
      (.refreshToken p.sub rt) = false := by
    simp [AuthService.revoke_refresh_token, redisExists_delete_same]
  have hrev_new : redisExists (AuthService.revoke_refresh_token w.redis p.sub rt)
      (.refreshToken p.sub (create_refresh_token S (token_data_of u) w.now)) = false := by
    unfold AuthService.revoke_refresh_token
    rw [redisExists_delete_other _ _ _ hkey]
    exact hfresh
  have hsto_old : redisExists
      (AuthService.store_refresh_token
        (AuthService.revoke_refresh_token w.redis p.sub rt) p.sub
        (create_refresh_token S (token_data_of u) w.now))
      (.refreshToken p.sub rt) = false := by
    unfold AuthService.store_refresh_token
    rw [redisExists_setex_other _ _ _ _ _ hkey.symm]
    exact hrev_old
  refine ⟨htrace, hrev_old, hrev_new, ?_⟩
  rw [htrace]
  simp only [List.all_cons, List.all_nil]
  rw [hfresh, hrev_old, hsto_old]
  simp

/-- C1 counterexample: a successful rotation in which no revocation-store
state the call passes through contains allow-records for both the old and
the new refresh token — the claimed dual-validity window does not exist,
because the code deletes the old record before registering the new one. -/
theorem c1_counterexample_no_dual_validity_window :
    (AuthService.refresh_access_token exSettings exW1 exRT1).1
        = .ok (create_access_token exSettings (token_data_of exUser) none 1000, exNRT1)
    ∧ List.all (AuthService.refresh_redis_states exSettings exW1 exRT1) (fun r =>
        !(redisExists r (.refreshToken "u-1" exRT1)
            && redisExists r (.refreshToken "u-1" exNRT1))) = true := by
  exact ⟨rfl, rfl⟩

/-- C3 (amended): once a successful `refresh_access_token(rt)` call has
completed (its revoke step included), a second call with the original
`rt` fails with the revoked-token error — provided the newly minted
refresh token differs from `rt` (JWT encoding is deterministic, so the
rotation reproduces `rt` itself exactly when it runs in the same second
as `rt`'s issuance with unchanged claims, in which case the allow-record
is re-created and `rt` stays usable). -/
theorem c3_rotated_token_not_reusable
    (S : Settings) (w : World) (rt : TokenStr) (p : JwtPayload) (u : User)
    (hdec : decode_token S rt "refresh" w.now = some p)
    (hsub : (p.sub == "") = false)
    (hchk : AuthService.check_refresh_token w.redis p.sub rt = true)
    (hid : findById w.db p.sub = some u)
    (hact : u.is_active = true)
    (hne : create_refresh_token S (token_data_of u) w.now ≠ rt) :
    AuthService.refresh_access_token S w rt
      = (.ok (create_access_token S (token_data_of u) none w.now,
              create_refresh_token S (token_data_of u) w.now),
         { w with redis := (AuthService.store_refresh_token
             (AuthService.revoke_refresh_token w.redis p.sub rt) p.sub
             (create_refresh_token S (token_data_of u) w.now)) })
    ∧ (AuthService.refresh_access_token S
          (AuthService.refresh_access_token S w rt).2 rt).1
        = .error ⟨401, "Refresh token has been revoked"⟩ := by
  have hkey : (RKey.refreshToken p.sub (create_refresh_token S (token_data_of u) w.now))
      ≠ (RKey.refreshToken p.sub rt) := by
    intro hk
    exact hne (by injection hk)
  have hrun : AuthService.refresh_access_token S w rt
      = (.ok (create_access_token S (token_data_of u) none w.now,
              create_refresh_token S (token_data_of u) w.now),
         { w with redis := (AuthService.store_refresh_token
             (AuthService.revoke_refresh_token w.redis p.sub rt) p.sub
             (create_refresh_token S (token_data_of u) w.now)) }) := by
    simp [AuthService.refresh_access_token, hdec, hsub, hchk, hid, hact]
  have hchk2 : AuthService.check_refresh_token
      (AuthService.store_refresh_token
        (AuthService.revoke_refresh_token w.redis p.sub rt) p.sub
        (create_refresh_token S (token_data_of u) w.now)) p.sub rt = false := by
    unfold AuthService.check_refresh_token AuthService.store_refresh_token
      AuthService.revoke_refresh_token
    rw [redisExists_setex_other _ _ _ _ _ hkey.symm]
    exact redisExists_delete_same _ _
  refine ⟨hrun, ?_⟩
  rw [hrun]
  simp [AuthService.refresh_access_token, hdec, hsub, hchk2]

/-- C3 counterexample: a refresh in the same second as the token's
issuance reproduces the identical refresh token, so the rotation's
revoke-then-store re-creates the old token's allow-record and a second
`refresh_access_token` call with the original token *succeeds* instead of
failing with the revoked-token error. -/
theorem c3_counterexample_same_second_reissue :
    (AuthService.refresh_access_token exSettings exW3 exRT3).1
        = .ok (create_access_token exSettings (token_data_of exUser) none 1000, exRT3)
    ∧ (AuthService.refresh_access_token exSettings
          (AuthService.refresh_access_token exSettings exW3 exRT3).2 exRT3).1
        = .ok (create_access_token exSettings (token_data_of exUser) none 1000, exRT3) := by
  exact ⟨rfl, rfl⟩

/-- C8 (amended): whenever a refresh token is issued (login or rotation)
its allow-record is registered, but with a TTL hard-coded to
`7 * 24 * 3600` seconds, while the expiry window embedded in the signed
token is `REFRESH_TOKEN_EXPIRE_DAYS` days; the two agree exactly when the
configured lifetime is the default 7 days. -/
theorem c8_allow_record_ttl_hardcoded_seven_days :
    (∀ (r : Redis) (uid : String) (t : TokenStr),
        redisEntry (AuthService.store_refresh_token r uid t) (.refreshToken uid t)
          = some ⟨.refreshToken uid t, "1", 7 * 24 * 3600⟩)
    ∧ (∀ (S : Settings) (d : TokenData) (now : Nat),
        create_refresh_token S d now
          = .signed { sub := d.sub, email := d.email, role := d.role,
                      exp := now + S.REFRESH_TOKEN_EXPIRE_DAYS * 24 * 3600,
                      type := "refresh" } S.JWT_REFRESH_SECRET)
    ∧ (∀ S : Settings,
        7 * 24 * 3600 = S.REFRESH_TOKEN_EXPIRE_DAYS * 24 * 3600
          ↔ S.REFRESH_TOKEN_EXPIRE_DAYS = 7)
    ∧ (∀ (S : Settings) (w : World) (d : LoginRequest) (u : User),
        findByEmail w.db d.email = some u →
        (pyFalsyStrOpt u.password_hash
          || !(verify_password d.password ((u.password_hash).getD ""))) = false →
        u.is_active = true →
        redisEntry (AuthService.authenticate_user S w d).2.redis
            (.refreshToken u.id (create_refresh_token S (token_data_of u) w.now))
          = some ⟨.refreshToken u.id (create_refresh_token S (token_data_of u) w.now),
                  "1", 7 * 24 * 3600⟩)
    ∧ (∀ (S : Settings) (w : World) (rt : TokenStr) (p : JwtPayload) (u : User),
        decode_token S rt "refresh" w.now = some p → (p.sub == "") = false →
        AuthService.check_refresh_token w.redis p.sub rt = true →
        findById w.db p.sub = some u → u.is_active = true →
        redisEntry (AuthService.refresh_access_token S w rt).2.redis
            (.refreshToken p.sub (create_refresh_token S (token_data_of u) w.now))
          = some ⟨.refreshToken p.sub (create_refresh_token S (token_data_of u) w.now),
                  "1", 7 * 24 * 3600⟩) := by
  refine ⟨?_, ?_, ?_, ?_, ?_⟩
  · intro r uid t
    simp [AuthService.store_refresh_token, redisEntry_setex_same]
  · intro S d now
    rfl
  · intro S
    omega
  · intro S w d u hf hcond hact
    simp [AuthService.authenticate_user, hf, hcond, hact,
      AuthService.store_refresh_token, redisEntry_setex_same]
  · intro S w rt p u hdec hsub hchk hid hact
    simp [AuthService.refresh_access_token, hdec, hsub, hchk, hid, hact,
      AuthService.store_refresh_token, redisEntry_setex_same]

/-- C8 counterexample: with a configured refresh lifetime of 1 day, login
succeeds and registers the new refresh token's allow-record with TTL
`7 * 24 * 3600` = 604800 seconds, while the expiry window embedded in the
signed token is `1 * 24 * 3600` = 86400 seconds — the claimed equality of
record TTL and token lifetime fails for this configured value. -/
theorem c8_counterexample_ttl_not_configured_lifetime :
    (AuthService.authenticate_user exSettings8 exW8 exLogin).1
        = .ok ({ exUser with last_login_at := some 1000 },
               create_access_token exSettings8 (token_data_of exUser) none 1000, exRT8)
    ∧ redisEntry (AuthService.authenticate_user exSettings8 exW8 exLogin).2.redis
        (.refreshToken "u-1" exRT8)
        = some ⟨.refreshToken "u-1" exRT8, "1", 604800⟩
    ∧ exRT8 = .signed { sub := "u-1", email := "alice@example.com", role := "user",
                        exp := 1000 + 86400, type := "refresh" } "refresh-secret"
    ∧ 604800 ≠ 86400 := by
  refine ⟨rfl, rfl, rfl, by decide⟩

/-- C2 counterexample: a successful `change_password` leaves the
principal's refresh-token allow-record in place, and a subsequent
`refresh_access_token` with that pre-change token still succeeds —
password change does not revoke the principal's sessions. -/
theorem c2_counterexample_change_password_keeps_sessions :
    (AuthService.change_password exW2 "u-1" "old-pw" "new-pw").1
        = .ok { exUser with password_hash := some (hash_password "new-pw") }
    ∧ redisExists (AuthService.change_password exW2 "u-1" "old-pw" "new-pw").2.redis
        (.refreshToken "u-1" exRT2) = true
    ∧ (AuthService.refresh_access_token exSettings
          (AuthService.change_password exW2 "u-1" "old-pw" "new-pw").2 exRT2).1
        = .ok (create_access_token exSettings (token_data_of exUser) none 1000,
               create_refresh_token exSettings (token_data_of exUser) 1000) := by
  refine ⟨rfl, rfl, rfl⟩

/-! ## Witnesses -/

/-- Witness for C1 at a concrete rotation: after the revoke step and
before the store step, neither the old nor the new token is allowed. -/
theorem c1_rotation_window_has_neither_record_witness :
    redisExists (AuthService.revoke_refresh_token exW1.redis "u-1" exRT1)
        (.refreshToken "u-1" exRT1) = false
    ∧ redisExists (AuthService.revoke_refresh_token exW1.redis "u-1" exRT1)
        (.refreshToken "u-1" exNRT1) = false := by
  have h := c1_rotation_window_has_neither_record exSettings exW1 exRT1
      { sub := "u-1", email := "alice@example.com", role := "user",
        exp := 500000, type := "refresh" } exUser
      rfl rfl rfl rfl rfl rfl (by decide)
  exact ⟨h.2.1, h.2.2.1⟩

/-- Witness for C2 at a concrete reset: the allow-record is gone and the
old refresh token is rejected as revoked. -/
theorem c2_reset_revokes_all_change_does_not_witness :
    (AuthService.reset_password exW2r "tok-B" "new-pw").1
        = .ok { exUser with password_hash := some (hash_password "new-pw") }
    ∧ redisExists (AuthService.reset_password exW2r "tok-B" "new-pw").2.redis
        (.refreshToken "u-1" exRT2) = false
    ∧ (AuthService.refresh_access_token exSettings
          (AuthService.reset_password exW2r "tok-B" "new-pw").2 exRT2).1
        = .error ⟨401, "Refresh token has been revoked"⟩ := by
  have h := c2_reset_revokes_all_change_does_not.1 exW2r "tok-B" "new-pw" "u-1" exUser
      rfl rfl
  exact ⟨h.1, h.2.1 exRT2,
    h.2.2 exSettings exRT2
      { sub := "u-1", email := "alice@example.com", role := "user",
        exp := 500000, type := "refresh" } rfl rfl rfl⟩

/-- Witness for C3 at a concrete rotation: the second refresh with the
original token is rejected as revoked. -/
theorem c3_rotated_token_not_reusable_witness :
    (AuthService.refresh_access_token exSettings
        (AuthService.refresh_access_token exSettings exW1 exRT1).2 exRT1).1
      = .error ⟨401, "Refresh token has been revoked"⟩ :=
  (c3_rotated_token_not_reusable exSettings exW1 exRT1
      { sub := "u-1", email := "alice@example.com", role := "user",
        exp := 500000, type := "refresh" } exUser
      rfl rfl rfl rfl rfl (by decide)).2

/-- Witness for C4 at a concrete failing refresh (malformed token): the
call errors and the world is unchanged. -/
theorem c4_refresh_failure_no_partial_rotation_witness :
    AuthService.refresh_access_token exSettings exW1 (.malformed "junk")
        = (.error ⟨401, "Invalid refresh token"⟩, exW1)
    ∧ exW1.redis = exW1.redis :=
  ⟨rfl, (c4_refresh_failure_no_partial_rotation exSettings exW1 exW1 (.malformed "junk")
      ⟨401, "Invalid refresh token"⟩ rfl).2.1⟩

/-- Witness for C5 at concrete inputs: a malformed string is rejected and
an access token is rejected when checked as a refresh token. -/
theorem c5_decode_token_rejections_witness :
    decode_token exSettings (.malformed "junk") "access" 0 = none
    ∧ decode_token exSettings
        (create_access_token exSettings (token_data_of exUser) none 0) "refresh" 99
        = none := by
  have h := c5_decode_token_rejections exSettings "access" (Or.inl rfl)
  exact ⟨h.1 "junk" 0, h.2.2.2.2.1 (token_data_of exUser) none 0 99⟩

/-- Witness for C6 at a concrete issuance: the token decodes to the
principal's claims before expiry and to `none` after. -/
theorem c6_access_token_round_trip_witness :
    decode_token exSettings
        (create_access_token exSettings (token_data_of exUser) none 1000) "access" 1500
      = some { sub := "u-1", email := "alice@example.com", role := "user",
               exp := 1900, type := "access" }
    ∧ decode_token exSettings
        (create_access_token exSettings (token_data_of exUser) none 1000) "access" 2000
      = none := by
  have h := c6_access_token_round_trip exSettings exUser 1000
  exact ⟨h.1 1500 (by decide), h.2 2000 (by decide)⟩

/-- Witness for C7 at a concrete reset flow: the first redemption
succeeds, the second fails with the invalid-or-expired error. -/
theorem c7_one_time_tokens_single_use_witness :
    (AuthService.reset_password
        (AuthService.create_password_reset_token exW7 "alice@example.com" "tok-A").2
        "tok-A" "new-pw").1
      = .ok { exUser with password_hash := some (hash_password "new-pw") }
    ∧ AuthService.reset_password
        (AuthService.reset_password
          (AuthService.create_password_reset_token exW7 "alice@example.com" "tok-A").2
          "tok-A" "new-pw").2
        "tok-A" "other-pw"
      = (.error ⟨400, "Invalid or expired reset token"⟩,
         (AuthService.reset_password
           (AuthService.create_password_reset_token exW7 "alice@example.com" "tok-A").2
           "tok-A" "new-pw").2) := by
  have h := c7_one_time_tokens_single_use.1 exW7 "alice@example.com" "tok-A"
      "new-pw" "other-pw" exUser rfl rfl
  exact ⟨h.2.2.1, h.2.2.2⟩

/-- Witness for C8 at a concrete 1-day configuration: the allow-record is
registered with the hard-coded 7-day TTL. -/
theorem c8_allow_record_ttl_hardcoded_seven_days_witness :
    redisEntry (AuthService.store_refresh_token [] "u-1" exRT8)
        (.refreshToken "u-1" exRT8)
      = some ⟨.refreshToken "u-1" exRT8, "1", 7 * 24 * 3600⟩
    ∧ redisEntry (AuthService.authenticate_user exSettings8 exW8 exLogin).2.redis
        (.refreshToken "u-1" exRT8)
      = some ⟨.refreshToken "u-1" exRT8, "1", 7 * 24 * 3600⟩ := by
  have h := c8_allow_record_ttl_hardcoded_seven_days
  exact ⟨h.1 [] "u-1" exRT8,
    h.2.2.2.1 exSettings8 exW8 exLogin exUser rfl rfl rfl⟩

/-- Witness for C9 at a concrete unknown email: generic success response
and unchanged world. -/
theorem c9_forgot_password_noninterference_witness :
    (forgot_password exW10 "nobody@example.com" "tok-C").1
        = .ok "If the email exists, a password reset link has been sent."
    ∧ (forgot_password exW10 "nobody@example.com" "tok-C").2 = exW10 := by
  have h := c9_forgot_password_noninterference exW10 "nobody@example.com" "tok-C"
  exact ⟨h.1, h.2.1 rfl⟩

/-- Witness for C10 at a concrete SSO-only principal: password login is
rejected with the generic 401. -/
theorem c10_sso_only_login_rejected_witness :
    AuthService.authenticate_user exSettings exW10
        { email := "bob@example.com", password := "whatever" }
      = (.error ⟨401, "Incorrect email or password"⟩, exW10) :=
  c10_sso_only_login_rejected.1 exSettings exW10
    { email := "bob@example.com", password := "whatever" } exSsoUser rfl rfl
